import Mathlib

/-!
Verification development for the dual-model comparison app ("KI-Modell-Arena").

Shallow embedding of:
* `src/lib/models.ts`    — the static model registry (`OPENAI_MODELS`,
  `ANTHROPIC_MODELS`, `ALL_MODELS`, `getModelConfig`);
* `src/lib/pricing.ts`   — the Token/Cost Accountant (`calculateCost`,
  `calculateLiveCost`; its `MODEL_PRICING` constant duplicates the registry's
  prices but is not read by the cost functions, which use
  `getModelConfig(...).pricing`);
* `src/lib/tokenizer.ts` — character-ratio token estimation (`countTokens`,
  `countOpenAITokens`, `countAnthropicTokens`);
* `src/app/actions.ts` streaming route (`GET`, `streamModel`,
  `saveStreamResults`) — modelled as a per-request trace relation;
* `src/lib/history.ts` / `actions.ts` deletion operations
  (`deletePromptHistoryItem`, `deleteMultipleHistoryItems`);
* `src/lib/streaming.ts` client reducer (`updateStreamState`,
  `createInitialStreamState`).

Modelling conventions: JavaScript numbers that hold token counts are `ℕ`;
numbers that hold prices/costs are `ℚ` (the source's arithmetic is IEEE
doubles; all the properties proved here concern the exact decimal arithmetic
the source expresses, so rationals are the faithful exact model).
JavaScript string `.length` counts UTF-16 units and Lean counts codepoints;
they agree on the ASCII inputs used in witnesses.  A `throw` is an
`Except.error`; a rejected promise is `Option.none` in the settled result.
-/

namespace Arena

/-- Provider tag of a model: the string-literal union
`"openai" | "anthropic"` of the `ModelConfig.provider` field in
`src/lib/models.ts` (the file appears in the sources as
`src/unnamed/part_002`, lines 368–557). -/
inductive Provider where
  | openai
  | anthropic
deriving DecidableEq

/-- Per-1000-token input/output prices of one model (the `pricing` field of
`ModelConfig` in `src/lib/models.ts`). -/
structure ModelPricing where
  input : ℚ
  output : ℚ
deriving DecidableEq

/-- The `ModelConfig` record of `src/types` as populated by the entries of
`src/lib/models.ts`: id, name, display name, provider tag, per-1K pricing,
context size and streaming flag. -/
structure ModelConfig where
  id : String
  name : String
  displayName : String
  provider : Provider
  pricing : ModelPricing
  maxTokens : ℕ
  supportsStreaming : Bool
deriving DecidableEq

/-- `OPENAI_MODELS` of `src/lib/models.ts` (`src/unnamed/part_002`,
lines 405–444).  Prices are USD per 1K tokens, written as exact rationals:
`0.005 = 5/1000`, `0.015 = 15/1000`, `0.00015 = 15/100000`,
`0.0006 = 6/10000`, `0.01 = 1/100`, `0.03 = 3/100`, `0.0015 = 15/10000`,
`0.002 = 2/1000`. -/
def OPENAI_MODELS : List ModelConfig :=
  [ ⟨"gpt-4o", "gpt-4o", "GPT-4o", .openai, ⟨5/1000, 15/1000⟩,
      128000, true⟩,
    ⟨"gpt-4o-mini", "gpt-4o-mini", "GPT-4o Mini", .openai,
      ⟨15/100000, 6/10000⟩, 128000, true⟩,
    ⟨"gpt-4-turbo", "gpt-4-turbo", "GPT-4 Turbo", .openai,
      ⟨1/100, 3/100⟩, 128000, true⟩,
    ⟨"gpt-3.5-turbo", "gpt-3.5-turbo", "GPT-3.5 Turbo", .openai,
      ⟨15/10000, 2/1000⟩, 16385, true⟩ ]

/-- `ANTHROPIC_MODELS` of `src/lib/models.ts` (`src/unnamed/part_002`,
lines 446–477): `0.003 = 3/1000`, `0.015 = 15/1000`, `0.0008 = 8/10000`,
`0.004 = 4/1000`, `0.075 = 75/1000`. -/
def ANTHROPIC_MODELS : List ModelConfig :=
  [ ⟨"claude-3-5-sonnet-20241022", "claude-3-5-sonnet-20241022",
      "Claude 3.5 Sonnet", .anthropic, ⟨3/1000, 15/1000⟩, 200000, true⟩,
    ⟨"claude-3-5-haiku-20241022", "claude-3-5-haiku-20241022",
      "Claude 3.5 Haiku", .anthropic, ⟨8/10000, 4/1000⟩, 200000, true⟩,
    ⟨"claude-3-opus-20240229", "claude-3-opus-20240229", "Claude 3 Opus",
      .anthropic, ⟨15/1000, 75/1000⟩, 200000, true⟩ ]

/-- `ALL_MODELS` of `src/lib/models.ts` (`src/unnamed/part_002`,
lines 493–496): the OpenAI entries followed by the Anthropic entries. -/
def ALL_MODELS : List ModelConfig := OPENAI_MODELS ++ ANTHROPIC_MODELS

/-- `getModelConfig` of `src/lib/models.ts` (`src/unnamed/part_002`,
line 499): `ALL_MODELS.find(model => model.id === modelId) || null`, i.e.
the first registry entry with the given id, or nothing. -/
def getModelConfig (modelId : String) : Option ModelConfig :=
  ALL_MODELS.find? (fun model => model.id == modelId)

/-- `TokenUsage` of `src/types`: input/output/total token counts. -/
structure TokenUsage where
  input : ℕ
  output : ℕ
  total : ℕ
deriving DecidableEq

/-- `CostCalculation` of `src/types`, as produced by `calculateCost`. -/
structure CostCalculation where
  inputTokens : ℕ
  outputTokens : ℕ
  inputCost : ℚ
  outputCost : ℚ
  totalCost : ℚ
deriving DecidableEq

/-- `Math.ceil` on a non-negative rational, as a natural number; written with
the executable `Rat.floor` so that it evaluates; `ratCeilNat_eq_ceil` relates
it to the mathematical ceiling. -/
def ratCeilNat (q : ℚ) : ℕ := (-((-q).floor)).toNat

/-- `parseFloat(x.toFixed(6))` of the source: round half-up at six decimal
places (executable form; `round6_eq_floor` gives the mathematical form). -/
def round6 (x : ℚ) : ℚ := (((x * 1000000 + 1/2).floor : ℤ) : ℚ) / 1000000

/-- `calculateCost` of `src/lib/pricing.ts` (lines 26–50).  The source throws
`Unknown model for cost calculation` when `getModelConfig` yields nothing;
thrown errors are modelled as `Except.error`. -/
def calculateCost (tokenUsage : TokenUsage) (modelId : String) :
    Except String CostCalculation :=
  match getModelConfig modelId with
  | none => .error ("Unknown model for cost calculation: " ++ modelId)
  | some modelConfig =>
      let pricing := modelConfig.pricing
      let inputCost : ℚ := ((tokenUsage.input : ℚ) / 1000) * pricing.input
      let outputCost : ℚ := ((tokenUsage.output : ℚ) / 1000) * pricing.output
      let totalCost : ℚ := inputCost + outputCost
      .ok ⟨tokenUsage.input, tokenUsage.output,
           round6 inputCost, round6 outputCost, round6 totalCost⟩

/-- `calculateLiveCost` of `src/lib/pricing.ts` (lines 55–67): builds a
`TokenUsage` and returns `calculateCost(...).totalCost`; the unknown-model
throw propagates. -/
def calculateLiveCost (inputTokens outputTokens : ℕ) (modelId : String) :
    Except String ℚ :=
  (calculateCost ⟨inputTokens, outputTokens, inputTokens + outputTokens⟩
      modelId).map (fun c => c.totalCost)

/-- Totalization of `calculateLiveCost` used inside the streaming-route model:
the route validates both model ids with `getModelConfig` before any slot task
starts, so the unknown-model throw is unreachable there; the default 0 never
fires for traces of the route. -/
def liveCostD (inputTokens outputTokens : ℕ) (modelId : String) : ℚ :=
  match calculateLiveCost inputTokens outputTokens modelId with
  | .ok c => c
  | .error _ => 0

/-! ### Tokenizer (`src/lib/tokenizer.ts`) -/

/-- `TOKEN_ESTIMATION.OPENAI_CHARS_PER_TOKEN`. -/
def OPENAI_CHARS_PER_TOKEN : ℚ := 4

/-- `TOKEN_ESTIMATION.ANTHROPIC_CHARS_PER_TOKEN` (3.8). -/
def ANTHROPIC_CHARS_PER_TOKEN : ℚ := 19/5

/-- `TOKEN_ESTIMATION.DEFAULT_CHARS_PER_TOKEN`. -/
def DEFAULT_CHARS_PER_TOKEN : ℚ := 4

/-- `pat` occurs as a contiguous run inside `s` (helper for `strIncludes`). -/
def charsHaveInfix : List Char → List Char → Bool
  | [], pat => pat.isEmpty
  | c :: t, pat => pat.isPrefixOf (c :: t) || charsHaveInfix t pat

/-- JavaScript `s.includes(pat)`: `pat` occurs as a contiguous substring. -/
def strIncludes (s pat : String) : Bool := charsHaveInfix s.data pat.data

/-- JavaScript `s.trim()`: strip leading and trailing whitespace (written over
the character list so that it evaluates; agrees with the JS behaviour on the
ASCII whitespace relevant here). -/
def jsTrim (s : String) : String :=
  ⟨(((s.data.dropWhile Char.isWhitespace).reverse.dropWhile
      Char.isWhitespace).reverse)⟩

/-- JavaScript `s.startsWith(pat)`. -/
def jsStartsWith (s pat : String) : Bool := pat.data.isPrefixOf s.data

/-- `countOpenAITokens` of `src/lib/tokenizer.ts` (lines 27–33). -/
def countOpenAITokens (text _modelName : String) : ℕ :=
  if jsTrim text = "" then 0
  else
    let cleanText := jsTrim text
    ratCeilNat ((cleanText.length : ℚ) / OPENAI_CHARS_PER_TOKEN)

/-- `countAnthropicTokens` of `src/lib/tokenizer.ts` (lines 38–43). -/
def countAnthropicTokens (text _modelName : String) : ℕ :=
  if jsTrim text = "" then 0
  else
    let cleanText := jsTrim text
    ratCeilNat ((cleanText.length : ℚ) / ANTHROPIC_CHARS_PER_TOKEN)

/-- `countTokens` of `src/lib/tokenizer.ts` (lines 48–61).  `!text` is the
empty-string falsy test; the provider is chosen from the model id. -/
def countTokens (text modelId : String) : ℕ :=
  if text = "" then 0
  else if jsStartsWith modelId "gpt-" || strIncludes modelId "openai" then
    countOpenAITokens text modelId
  else if jsStartsWith modelId "claude-" || strIncludes modelId "anthropic" then
    countAnthropicTokens text modelId
  else
    let cleanText := jsTrim text
    ratCeilNat ((cleanText.length : ℚ) / DEFAULT_CHARS_PER_TOKEN)

/-! ### History Store (`src/lib/history.ts`, `src/app/actions.ts`)

The `prompt` table is modelled as a list of stored rows; the database-assigned
`id` is the row key.  I/O failures of the store itself are outside the model
(the source catches and logs them). -/

/-- The persisted record shape written by `saveStreamResults` /
`saveToDatabase` (`prompt` table columns minus id/createdAt). -/
structure HistoryRecord where
  content : String
  model1 : String
  model2 : String
  response1 : Option String
  response2 : Option String
  cost1 : Option ℚ
  cost2 : Option ℚ
deriving DecidableEq

/-- One row of the `prompt` table: database id plus record payload. -/
structure StoredPrompt where
  id : String
  payload : HistoryRecord
deriving DecidableEq

/-- The `ServerActionResult` union of `src/types`: either
`success: true` with data, or `success: false` with an error message. -/
inductive ServerActionResult (α : Type) where
  | ok (data : α)
  | err (msg : String)
deriving DecidableEq

/-- Prisma semantics of `prisma.prompt.delete(\x7bwhere: \x7bid\x7d\x7d)`: the
promise rejects with a record-not-found error (code P2025) when no row has the
given id; otherwise the row is removed.  Ids are unique in the table. -/
def prismaDelete (db : List StoredPrompt) (id : String) :
    Except String (List StoredPrompt) :=
  if db.any (fun r => r.id == id) then
    .ok (db.filter (fun r => !(r.id == id)))
  else
    .error "P2025"

/-- `deletePromptHistoryItem` of `src/app/actions.ts` (lines 181–197): a
rejection from `prisma.prompt.delete` is caught and surfaced as
`success: false`.  Returns the table after the call together with the action
result. -/
def deletePromptHistoryItem (db : List StoredPrompt) (id : String) :
    List StoredPrompt × ServerActionResult Unit :=
  match prismaDelete db id with
  | .ok db2 => (db2, .ok ())
  | .error _ => (db, .err "Fehler beim Löschen des Eintrags")

/-- Prisma semantics of `prisma.prompt.deleteMany(\x7bwhere: \x7bid: \x7bin:
ids\x7d\x7d\x7d)`: removes every matching row and resolves with the count of
rows actually removed; matching nothing is not an error. -/
def prismaDeleteMany (db : List StoredPrompt) (ids : List String) :
    List StoredPrompt × ℕ :=
  (db.filter (fun r => !(ids.contains r.id)),
   (db.filter (fun r => ids.contains r.id)).length)

/-- `deleteMultipleHistoryItems` of `src/lib/history.ts` (lines 138–159). -/
def deleteMultipleHistoryItems (db : List StoredPrompt) (ids : List String) :
    List StoredPrompt × ServerActionResult ℕ :=
  let res := prismaDeleteMany db ids
  (res.1, .ok res.2)

/-! ### Stream events (`src/types`, shared by route and client) -/

/-- The `model` tag of a stream event (`model1 | model2 | system`; the route
of `actions.ts` only ever emits `model1`/`model2`). -/
inductive ModelKey where
  | model1
  | model2
  | system
deriving DecidableEq

/-- The discriminator of a stream event. -/
inductive EventType where
  | start
  | token
  | complete
  | error
deriving DecidableEq

/-- Payload of a stream event (`StreamResponse` of `src/types`).  Fields the
producer may omit are `Option`; the route always fills them in. -/
structure StreamData where
  id : String
  model : String
  delta : Option String
  tokens : Option TokenUsage
  cost : Option ℚ
  isComplete : Option Bool
  error : Option String
deriving DecidableEq

/-- A tagged stream event (`StreamEvent` of `src/types`). -/
structure StreamEvent where
  type : EventType
  model : ModelKey
  data : StreamData
deriving DecidableEq

/-! ### Client-side reducer (`src/lib/streaming.ts`, lines 269–362) -/

/-- Per-model sub-state of the client `StreamState`. -/
structure ModelStreamState where
  content : String
  isStreaming : Bool
  tokens : TokenUsage
  cost : ℚ
  error : Option String
deriving DecidableEq

/-- The client `StreamState` (both slots plus derived fields). -/
structure StreamState where
  model1 : ModelStreamState
  model2 : ModelStreamState
  totalCost : ℚ
  isAnyStreaming : Bool
deriving DecidableEq

/-- `createInitialStreamState` of `src/lib/streaming.ts` (lines 288–305). -/
def createInitialStreamState : StreamState :=
  ⟨⟨"", false, ⟨0, 0, 0⟩, 0, none⟩, ⟨"", false, ⟨0, 0, 0⟩, 0, none⟩, 0, false⟩

/-- JavaScript `x || d` for an optional string (absent and the empty string
are falsy). -/
def jsOrString (x : Option String) (d : String) : String :=
  match x with
  | some s => if s = "" then d else s
  | none => d

/-- JavaScript `x || d` for an optional number (absent and 0 are falsy). -/
def jsOrQ (x : Option ℚ) (d : ℚ) : ℚ :=
  match x with
  | some c => if c = 0 then d else c
  | none => d

/-- The per-slot part of `updateStreamState`: the `switch (event.type)` of
`src/lib/streaming.ts` lines 320–355, applied to the addressed slot's
sub-state. -/
def applySlotEvent (st : ModelStreamState) (ty : EventType) (d : StreamData) :
    ModelStreamState :=
  match ty with
  | .start => { st with isStreaming := true, error := none, content := "" }
  | .token =>
      { st with
        content := st.content ++ jsOrString d.delta "",
        tokens := d.tokens.getD ⟨0, 0, 0⟩,
        cost := jsOrQ d.cost 0 }
  | .complete =>
      { st with
        isStreaming := false,
        tokens := d.tokens.getD ⟨0, 0, 0⟩,
        cost := jsOrQ d.cost 0 }
  | .error =>
      { st with
        isStreaming := false,
        error := some (jsOrString d.error "Unbekannter Fehler") }

/-- `updateStreamState` of `src/lib/streaming.ts` (lines 307–362): `system`
events are skipped; otherwise the addressed slot's sub-state is updated and
the derived fields `totalCost` / `isAnyStreaming` are recomputed. -/
def updateStreamState (state : StreamState) (event : StreamEvent) :
    StreamState :=
  match event.model with
  | .system => state
  | .model1 =>
      let m1 := applySlotEvent state.model1 event.type event.data
      { model1 := m1, model2 := state.model2,
        totalCost := m1.cost + state.model2.cost,
        isAnyStreaming := m1.isStreaming || state.model2.isStreaming }
  | .model2 =>
      let m2 := applySlotEvent state.model2 event.type event.data
      { model1 := state.model1, model2 := m2,
        totalCost := state.model1.cost + m2.cost,
        isAnyStreaming := state.model1.isStreaming || m2.isStreaming }

/-! ### The streaming route (`src/app/actions.ts`, `GET`, lines 275–413)

One accepted request runs two slot tasks (`streamModel`) concurrently and one
aggregator.  The behaviour of a backend for one request is a parameter of the
model: either instance creation throws (`createModelInstance`, run before any
event is emitted), or the started stream yields a list of chunk texts and
then either ends cleanly or throws.  A single run of the route is a trace:
the ordered sequence of emitted SSE events, database writes, and the final
`controller.close()`.  Per-slot event order is fixed by `streamModel`; the
cross-slot order of the two concurrent slots is an arbitrary interleaving,
which the trace relation quantifies over. -/

/-- How one backend stream ends: clean end-of-stream, or a throw whose
message is carried into the slot's error event. -/
inductive StreamEnd where
  | ok
  | errMsg (msg : String)
deriving DecidableEq

/-- Behaviour of one backend for one request. -/
inductive BackendOutcome where
  | createFail (msg : String)
  | run (deltas : List String) (fin : StreamEnd)
deriving DecidableEq

/-- One item of a route trace. -/
inductive TraceItem where
  | ev (e : StreamEvent)
  | save (r : HistoryRecord)
  | close
deriving DecidableEq

/-- The `start` event the route emits for a slot (lines 320–344): zero
token/cost state, `isComplete: false`. -/
def startEvent (sessionId modelId : String) (key : ModelKey) : StreamEvent :=
  ⟨.start, key, ⟨sessionId, modelId, some "", some ⟨0, 0, 0⟩, some 0,
    some false, none⟩⟩

/-- A `token` event of `streamModel` (lines 449–464) after the `outTok`-th
non-empty chunk: `inputTokens` stays at its initial value 0 (the prompt is
never estimated), `outputTokens` is the count of non-empty chunks so far,
and the live cost is recomputed from those counts. -/
def mkTokenEvent (sessionId modelId : String) (key : ModelKey)
    (delta : String) (outTok : ℕ) : StreamEvent :=
  ⟨.token, key, ⟨sessionId, modelId, some delta, some ⟨0, outTok, outTok⟩,
    some (liveCostD 0 outTok modelId), some false, none⟩⟩

/-- The `token` events of one slot run: the `for await` loop of `streamModel`
(lines 437–466); chunks with empty text are skipped (`if (delta)`), and the
output-token counter increments by one per non-empty chunk. -/
def tokenEvents (sessionId modelId : String) (key : ModelKey) :
    List String → ℕ → List StreamEvent
  | [], _ => []
  | d :: ds, n =>
      if d = "" then tokenEvents sessionId modelId key ds n
      else mkTokenEvent sessionId modelId key d (n + 1) ::
        tokenEvents sessionId modelId key ds (n + 1)

/-- Number of non-empty chunks — the slot's final output-token count. -/
def outTokens (ds : List String) : ℕ := (ds.filter (fun d => !(d == ""))).length

/-- The non-empty chunks, in order (the text increments actually emitted). -/
def nonEmptyDeltas (ds : List String) : List String :=
  ds.filter (fun d => !(d == ""))

/-- The `complete` event of `streamModel` (lines 473–484). -/
def completeEvent (sessionId modelId : String) (key : ModelKey) (n : ℕ) :
    StreamEvent :=
  ⟨.complete, key, ⟨sessionId, modelId, some "", some ⟨0, n, n⟩,
    some (liveCostD 0 n modelId), some true, none⟩⟩

/-- The `error` event of `streamModel`'s catch (lines 496–508): carries the
best-known token/cost state and the error message. -/
def errorEvent (sessionId modelId : String) (key : ModelKey) (n : ℕ)
    (msg : String) : StreamEvent :=
  ⟨.error, key, ⟨sessionId, modelId, some "", some ⟨0, n, n⟩,
    some (liveCostD 0 n modelId), some true, some msg⟩⟩

/-- The full per-slot event sequence of one `streamModel` run: its token
events followed by exactly one terminal event (`complete` on clean end,
`error` on a throw — after which `streamModel` rethrows and emits nothing
further). -/
def streamModelEvents (sessionId modelId : String) (key : ModelKey)
    (ds : List String) (fin : StreamEnd) : List StreamEvent :=
  tokenEvents sessionId modelId key ds 0 ++
    [match fin with
     | .ok => completeEvent sessionId modelId key (outTokens ds)
     | .errMsg msg => errorEvent sessionId modelId key (outTokens ds) msg]

/-- The value of `streamModel`'s returned promise (lines 486–490). -/
structure SlotResult where
  content : String
  tokens : TokenUsage
  cost : ℚ
deriving DecidableEq

/-- The settled result of one slot promise: fulfilled with content/usage/cost
on clean end, rejected (`none`) when the stream threw (line 510 rethrows). -/
def streamModelResult (modelId : String) (ds : List String) (fin : StreamEnd) :
    Option SlotResult :=
  match fin with
  | .ok =>
      some ⟨ds.foldl (fun acc d => if d = "" then acc else acc ++ d) "",
        ⟨0, outTokens ds, outTokens ds⟩, liveCostD 0 (outTokens ds) modelId⟩
  | .errMsg _ => none

/-- `saveStreamResults` of `src/app/actions.ts` (lines 517–544): fulfilled
slots contribute their content and cost, rejected slots contribute nulls. -/
def saveStreamResults (prompt model1Id model2Id : String)
    (r1 r2 : Option SlotResult) : HistoryRecord :=
  ⟨prompt, model1Id, model2Id,
   r1.map (fun r => r.content), r2.map (fun r => r.content),
   r1.map (fun r => r.cost), r2.map (fun r => r.cost)⟩

/-- The error event of the route's outer catch (lines 383–395): always tagged
`model1` and carrying `model1Id`, regardless of which backend threw. -/
def startupErrorEvent (sessionId model1Id msg : String) : StreamEvent :=
  ⟨.error, .model1, ⟨sessionId, model1Id, some "", some ⟨0, 0, 0⟩, some 0,
    some true, some msg⟩⟩

/-- The query parameters of one `GET /api/chat/stream` request
(`searchParams.get` yields null for a missing parameter). -/
structure GetRequest where
  session : Option String
  model1 : Option String
  model2 : Option String
  prompt : Option String

/-- The validation prefix of `GET` (lines 277–292): all four parameters
present and non-empty (falsy check), and both model ids registered; otherwise
the route answers 400 before any stream exists — no event is emitted and
nothing is persisted. -/
def validateRequest (req : GetRequest) :
    Option (String × String × String × String) :=
  match req.session, req.model1, req.model2, req.prompt with
  | some s, some m1, some m2, some p =>
      if s = "" || m1 = "" || m2 = "" || p = "" then none
      else if (getModelConfig m1).isSome && (getModelConfig m2).isSome then
        some (s, m1, m2, p)
      else none
  | _, _, _, _ => none

/-- An order-preserving interleaving of two event lists — the possible merged
orders in which the two concurrently progressing slots' `sendEvent` calls hit
the shared controller. -/
inductive Interleave : List StreamEvent → List StreamEvent → List StreamEvent → Prop
  | nil : Interleave [] [] []
  | left {x l1 l2 m} : Interleave l1 l2 m → Interleave (x :: l1) l2 (x :: m)
  | right {x l1 l2 m} : Interleave l1 l2 m → Interleave l1 (x :: l2) (x :: m)

/-- The trace of an accepted request, given the two backend behaviours.
If creating either model instance throws (lines 308–309, before the start
events), the outer catch emits its single `model1`-tagged error event and
closes — nothing is persisted.  Otherwise both start events are sent, the two
slot tasks run concurrently (their merged event order is any interleaving),
`Promise.allSettled` waits for both, exactly one record is written
(`saveStreamResults`), and the stream is closed. -/
def slotTrace (s m1 m2 p : String) (b1 b2 : BackendOutcome)
    (t : List TraceItem) : Prop :=
  match b1, b2 with
  | .createFail msg, _ => t = [.ev (startupErrorEvent s m1 msg), .close]
  | .run _ _, .createFail msg => t = [.ev (startupErrorEvent s m1 msg), .close]
  | .run d1 f1, .run d2 f2 =>
      ∃ m, Interleave (streamModelEvents s m1 .model1 d1 f1)
          (streamModelEvents s m2 .model2 d2 f2) m ∧
        t = .ev (startEvent s m1 .model1) :: .ev (startEvent s m2 .model2) ::
          (m.map .ev ++
            [.save (saveStreamResults p m1 m2 (streamModelResult m1 d1 f1)
              (streamModelResult m2 d2 f2)), .close])

/-- A complete run of the streaming route on an accepted request: validation
succeeded on the query parameters, and the trace is one the route can
produce for the given backend behaviours. -/
def GetTrace (req : GetRequest) (b1 b2 : BackendOutcome)
    (t : List TraceItem) : Prop :=
  ∃ s m1 m2 p, validateRequest req = some (s, m1, m2, p) ∧
    slotTrace s m1 m2 p b1 b2 t

/-- The emitted events of a trace, in order. -/
def evsOf : List TraceItem → List StreamEvent
  | [] => []
  | .ev e :: rest => e :: evsOf rest
  | .save _ :: rest => evsOf rest
  | .close :: rest => evsOf rest

/-- The records written to the History Store by a trace, in order. -/
def savesOf : List TraceItem → List HistoryRecord
  | [] => []
  | .ev _ :: rest => savesOf rest
  | .save r :: rest => r :: savesOf rest
  | .close :: rest => savesOf rest

/-- The events of a trace restricted to one slot tag. -/
def slotEventsIn (key : ModelKey) (t : List TraceItem) : List StreamEvent :=
  (evsOf t).filter (fun e => decide (e.model = key))

/-- A terminal event: `complete` or `error`. -/
def isTerminal (e : StreamEvent) : Bool :=
  decide (e.type = .complete) || decide (e.type = .error)

/-! ### Concrete runs used as witnesses and counterexamples -/

/-- A concrete accepted request. -/
def reqW : GetRequest :=
  ⟨some "sess", some "gpt-4o", some "claude-3-5-haiku-20241022",
   some "Say hi"⟩

/-- Concrete chunks streamed by slot 1 in the witness runs. -/
def deltasW1 : List String := ["Hi", " there"]

/-- Concrete chunks streamed by slot 2 in the all-success witness run. -/
def deltasW2 : List String := ["Hello"]

/-- A concrete interleaving (slot 1's events first) for the all-success run. -/
def mergedW1 : List StreamEvent :=
  streamModelEvents "sess" "gpt-4o" .model1 deltasW1 .ok ++
    streamModelEvents "sess" "claude-3-5-haiku-20241022" .model2 deltasW2 .ok

/-- The trace of the all-success witness run. -/
def traceW1 : List TraceItem :=
  .ev (startEvent "sess" "gpt-4o" .model1) ::
    .ev (startEvent "sess" "claude-3-5-haiku-20241022" .model2) ::
    (mergedW1.map .ev ++
      [.save (saveStreamResults "Say hi" "gpt-4o" "claude-3-5-haiku-20241022"
        (streamModelResult "gpt-4o" deltasW1 .ok)
        (streamModelResult "claude-3-5-haiku-20241022" deltasW2 .ok)),
       .close])

/-- A concrete interleaving for the run where slot 2 fails after 0 chunks. -/
def mergedW2 : List StreamEvent :=
  streamModelEvents "sess" "gpt-4o" .model1 deltasW1 .ok ++
    streamModelEvents "sess" "claude-3-5-haiku-20241022" .model2 []
      (.errMsg "boom")

/-- The trace of the partial-failure witness run. -/
def traceW2 : List TraceItem :=
  .ev (startEvent "sess" "gpt-4o" .model1) ::
    .ev (startEvent "sess" "claude-3-5-haiku-20241022" .model2) ::
    (mergedW2.map .ev ++
      [.save (saveStreamResults "Say hi" "gpt-4o" "claude-3-5-haiku-20241022"
        (streamModelResult "gpt-4o" deltasW1 .ok)
        (streamModelResult "claude-3-5-haiku-20241022" [] (.errMsg "boom"))),
       .close])

/-- The trace the route produces when creating the slot-1 model instance
throws. -/
def traceCreateFail1 : List TraceItem :=
  [.ev (startupErrorEvent "sess" "gpt-4o" "ENOKEY"), .close]

/-- The trace the route produces when creating the slot-2 model instance
throws (the outer catch still tags its single error event `model1`). -/
def traceCreateFail2 : List TraceItem :=
  [.ev (startupErrorEvent "sess" "gpt-4o" "missing ANTHROPIC_API_KEY"),
   .close]

/-! ### Bridge lemmas: executable floor/ceiling vs the mathematical ones -/

lemma ratFloor_eq_intFloor (q : ℚ) : q.floor = ⌊q⌋ := by
  rw [Rat.floor_def', Rat.floor_def]

lemma ratCeilNat_eq_ceil (q : ℚ) (hq : 0 ≤ q) : ratCeilNat q = ⌈q⌉₊ := by
  unfold ratCeilNat
  rw [ratFloor_eq_intFloor, Int.floor_neg, neg_neg]
  rw [← Int.natCast_ceil_eq_ceil hq, Int.toNat_natCast]

lemma round6_eq_floor (x : ℚ) :
    round6 x = ((⌊x * 1000000 + 1/2⌋ : ℤ) : ℚ) / 1000000 := by
  unfold round6
  rw [ratFloor_eq_intFloor]

lemma round6_mono {x y : ℚ} (h : x ≤ y) : round6 x ≤ round6 y := by
  rw [round6_eq_floor, round6_eq_floor]
  have hf : (⌊x * 1000000 + 1/2⌋ : ℚ) ≤ (⌊y * 1000000 + 1/2⌋ : ℚ) := by
    exact_mod_cast Int.floor_mono (by linarith)
  linarith

lemma getModelConfig_mem {modelId : String} {cfg : ModelConfig}
    (h : getModelConfig modelId = some cfg) : cfg ∈ ALL_MODELS :=
  List.mem_of_find?_eq_some h

lemma pricing_nonneg {modelId : String} {cfg : ModelConfig}
    (h : getModelConfig modelId = some cfg) :
    0 ≤ cfg.pricing.input ∧ 0 ≤ cfg.pricing.output := by
  have hmem := getModelConfig_mem h
  simp only [Arena.ALL_MODELS, Arena.OPENAI_MODELS, Arena.ANTHROPIC_MODELS,
    List.mem_append, List.mem_cons, List.not_mem_nil, or_false] at hmem
  rcases hmem with (rfl | rfl | rfl | rfl) | (rfl | rfl | rfl) <;>
    exact ⟨by norm_num, by norm_num⟩

/-! ### Claims C6, C7 — the Accountant -/

/-- C6: for every TokenUsage and every modelId with a registered
ModelDescriptor, `calculateCost` returns inputCost = input/1000 × priceIn,
outputCost = output/1000 × priceOut and totalCost = inputCost + outputCost,
each rounded to 6 decimal places; it is deterministic and pure, and it fails
with the unknown-model error exactly when modelId has no registered
descriptor, as does `calculateLiveCost`. -/
theorem c6_calculateCost_spec (u : TokenUsage) (modelId : String) :
    (∀ cfg, getModelConfig modelId = some cfg →
      calculateCost u modelId = .ok ⟨u.input, u.output,
        round6 ((u.input : ℚ) / 1000 * cfg.pricing.input),
        round6 ((u.output : ℚ) / 1000 * cfg.pricing.output),
        round6 ((u.input : ℚ) / 1000 * cfg.pricing.input +
          (u.output : ℚ) / 1000 * cfg.pricing.output)⟩)
    ∧ (getModelConfig modelId = none →
      calculateCost u modelId =
        .error ("Unknown model for cost calculation: " ++ modelId) ∧
      ∀ i o : ℕ, calculateLiveCost i o modelId =
        .error ("Unknown model for cost calculation: " ++ modelId))
    ∧ (∀ u2 m2, u = u2 → modelId = m2 →
        calculateCost u modelId = calculateCost u2 m2) := by
  refine ⟨?_, ?_, ?_⟩
  · intro cfg h
    unfold calculateCost
    rw [h]
  · intro h
    constructor
    · unfold calculateCost
      rw [h]
    · intro i o
      unfold calculateLiveCost calculateCost
      rw [h]
      rfl
  · intro u2 m2 h1 h2
    rw [h1, h2]

/-- Witness for C6 at a registered and an unregistered model id. -/
theorem c6_calculateCost_spec_witness :
    calculateCost ⟨1000, 2000, 3000⟩ "gpt-4o" = .ok ⟨1000, 2000,
      round6 (((1000 : ℕ) : ℚ) / 1000 * (5/1000)),
      round6 (((2000 : ℕ) : ℚ) / 1000 * (15/1000)),
      round6 (((1000 : ℕ) : ℚ) / 1000 * (5/1000) +
        ((2000 : ℕ) : ℚ) / 1000 * (15/1000))⟩
    ∧ calculateCost ⟨1000, 2000, 3000⟩ "nope" =
      .error ("Unknown model for cost calculation: " ++ "nope") := by
  constructor
  · exact (c6_calculateCost_spec ⟨1000, 2000, 3000⟩ "gpt-4o").1
      ⟨"gpt-4o", "gpt-4o", "GPT-4o", .openai, ⟨5/1000, 15/1000⟩,
        128000, true⟩ rfl
  · exact ((c6_calculateCost_spec ⟨1000, 2000, 3000⟩ "nope").2.1 rfl).1

/-- C7: for every registered modelId and fixed input token count, the total
cost returned by the Accountant is monotonically non-decreasing in the output
token count, including through the 6-decimal rounding step. -/
theorem c7_cost_monotone (modelId : String) (cfg : ModelConfig)
    (h : getModelConfig modelId = some cfg) (inp o1 o2 : ℕ) (ho : o1 ≤ o2) :
    ∃ c1 c2, calculateLiveCost inp o1 modelId = .ok c1 ∧
      calculateLiveCost inp o2 modelId = .ok c2 ∧ c1 ≤ c2 := by
  unfold calculateLiveCost calculateCost
  rw [h]
  refine ⟨_, _, rfl, rfl, ?_⟩
  apply round6_mono
  have hp := (pricing_nonneg h).2
  have hcast : (o1 : ℚ) ≤ (o2 : ℚ) := by exact_mod_cast ho
  have hmul : (o1 : ℚ) / 1000 * cfg.pricing.output ≤
      (o2 : ℚ) / 1000 * cfg.pricing.output := by
    apply mul_le_mul_of_nonneg_right _ hp
    linarith
  linarith

/-- Witness for C7: gpt-4o at fixed input 10 and outputs 1 ≤ 5. -/
theorem c7_cost_monotone_witness :
    ∃ c1 c2, calculateLiveCost 10 1 "gpt-4o" = .ok c1 ∧
      calculateLiveCost 10 5 "gpt-4o" = .ok c2 ∧ c1 ≤ c2 :=
  c7_cost_monotone "gpt-4o" ⟨"gpt-4o", "gpt-4o", "GPT-4o", .openai,
    ⟨5/1000, 15/1000⟩, 128000, true⟩ rfl 10 1 5
    (by norm_num)

/-! ### Claim C8 — token estimation -/

/-- C8: token estimation is a total function returning a non-negative
integer; it returns 0 for empty or whitespace-only text; and it uses the
per-provider characters-per-token constant — 4 for the OpenAI family, 3.8
(= 19/5) for the Anthropic family, and the fallback 4 for an unknown model
id — as the ceiling of trimmed length divided by the constant. -/
theorem c8_countTokens_spec (text modelId : String) :
    0 ≤ countTokens text modelId
    ∧ (jsTrim text = "" → countTokens text modelId = 0)
    ∧ ((jsStartsWith modelId "gpt-" || strIncludes modelId "openai") = true →
        countTokens text modelId = ⌈((jsTrim text).length : ℚ) / 4⌉₊)
    ∧ ((jsStartsWith modelId "gpt-" || strIncludes modelId "openai") = false →
       (jsStartsWith modelId "claude-" ||
         strIncludes modelId "anthropic") = true →
        countTokens text modelId = ⌈((jsTrim text).length : ℚ) / (19/5)⌉₊)
    ∧ ((jsStartsWith modelId "gpt-" || strIncludes modelId "openai") = false →
       (jsStartsWith modelId "claude-" ||
         strIncludes modelId "anthropic") = false →
        countTokens text modelId = ⌈((jsTrim text).length : ℚ) / 4⌉₊) := by
  have hempty : jsTrim "" = "" := rfl
  have hceil0 : ∀ c : ℚ, 0 < c → ⌈(((("" : String)).length : ℚ)) / c⌉₊ = 0 := by
    intro c hc
    rw [show ((("" : String)).length : ℚ) = 0 from by norm_num]
    simp
  have hopen : ∀ t, countOpenAITokens t modelId =
      ⌈((jsTrim t).length : ℚ) / 4⌉₊ := by
    intro t
    unfold countOpenAITokens OPENAI_CHARS_PER_TOKEN
    by_cases h : jsTrim t = ""
    · rw [if_pos h, h, hceil0 4 (by norm_num)]
    · rw [if_neg h]
      exact ratCeilNat_eq_ceil _ (by positivity)
  have hanth : ∀ t, countAnthropicTokens t modelId =
      ⌈((jsTrim t).length : ℚ) / (19/5)⌉₊ := by
    intro t
    unfold countAnthropicTokens ANTHROPIC_CHARS_PER_TOKEN
    by_cases h : jsTrim t = ""
    · rw [if_pos h, h, hceil0 (19/5) (by norm_num)]
    · rw [if_neg h]
      exact ratCeilNat_eq_ceil _ (by positivity)
  refine ⟨Nat.zero_le _, ?_, ?_, ?_, ?_⟩
  · intro h
    unfold countTokens
    by_cases ht : text = ""
    · rw [if_pos ht]
    · rw [if_neg ht]
      by_cases h1 : (jsStartsWith modelId "gpt-" ||
          strIncludes modelId "openai") = true
      · rw [if_pos h1, hopen, h, hceil0 4 (by norm_num)]
      · rw [if_neg h1]
        by_cases h2 : (jsStartsWith modelId "claude-" ||
            strIncludes modelId "anthropic") = true
        · rw [if_pos h2, hanth, h, hceil0 (19/5) (by norm_num)]
        · rw [if_neg h2]
          show ratCeilNat _ = 0
          rw [h, show ((("" : String)).length : ℚ) = 0 from by norm_num]
          rw [show (0 : ℚ) / DEFAULT_CHARS_PER_TOKEN = 0 from by
            norm_num [DEFAULT_CHARS_PER_TOKEN]]
          rw [ratCeilNat_eq_ceil 0 le_rfl]
          simp
  · intro h1
    unfold countTokens
    by_cases ht : text = ""
    · rw [if_pos ht, ht, hempty, hceil0 4 (by norm_num)]
    · rw [if_neg ht, if_pos h1, hopen]
  · intro h1 h2
    unfold countTokens
    by_cases ht : text = ""
    · rw [if_pos ht, ht, hempty, hceil0 (19/5) (by norm_num)]
    · rw [if_neg ht, if_neg (by simp [h1]), if_pos h2, hanth]
  · intro h1 h2
    unfold countTokens
    by_cases ht : text = ""
    · rw [if_pos ht, ht, hempty, hceil0 4 (by norm_num)]
    · rw [if_neg ht, if_neg (by simp [h1]), if_neg (by simp [h2])]
      show ratCeilNat _ = _
      rw [show DEFAULT_CHARS_PER_TOKEN = 4 from rfl]
      exact ratCeilNat_eq_ceil _ (by positivity)

/-- Witness for C8: whitespace-only text counts 0 for an unknown model, and
an OpenAI-family id uses the 4-chars-per-token ceiling. -/
theorem c8_countTokens_spec_witness :
    countTokens "   " "mystery-model" = 0
    ∧ countTokens "Hello" "gpt-4o" = ⌈((jsTrim "Hello").length : ℚ) / 4⌉₊ := by
  constructor
  · exact (c8_countTokens_spec "   " "mystery-model").2.1 (by decide)
  · exact (c8_countTokens_spec "Hello" "gpt-4o").2.2.1 (by decide)

/-! ### Claim C9 — deletion idempotence -/

/-- C9 (amended): `deleteMany` is idempotent — deleting non-existent ids is
not an error, the action reports success with the count of rows actually
removed, and repeating it removes nothing — while `deleteById` reports
success exactly when the id exists (deleting a non-existent id surfaces the
store's not-found rejection as a failure). -/
theorem c9_delete_idempotence (db : List StoredPrompt) (ids : List String)
    (id : String) :
    (∃ n, (deleteMultipleHistoryItems db ids).2 = .ok n)
    ∧ ((∀ r ∈ db, r.id ∉ ids) → deleteMultipleHistoryItems db ids = (db, .ok 0))
    ∧ (deleteMultipleHistoryItems (deleteMultipleHistoryItems db ids).1 ids
        = ((deleteMultipleHistoryItems db ids).1, .ok 0))
    ∧ ((deletePromptHistoryItem db id).2 = .ok () ↔ ∃ r ∈ db, r.id = id) := by
  refine ⟨⟨_, rfl⟩, ?_, ?_, ?_⟩
  · intro h
    unfold deleteMultipleHistoryItems prismaDeleteMany
    have hkeep : db.filter (fun r => !(ids.contains r.id)) = db := by
      apply List.filter_eq_self.mpr
      simpa using h
    have hdrop : db.filter (fun r => ids.contains r.id) = [] := by
      apply List.filter_eq_nil_iff.mpr
      simpa using h
    simp only [hkeep, hdrop, List.length_nil]
  · unfold deleteMultipleHistoryItems prismaDeleteMany
    have hkeep : (db.filter (fun r => !(ids.contains r.id))).filter
        (fun r => !(ids.contains r.id)) =
        db.filter (fun r => !(ids.contains r.id)) := by
      apply List.filter_eq_self.mpr
      intro r hr
      exact (List.mem_filter.mp hr).2
    have hdrop : (db.filter (fun r => !(ids.contains r.id))).filter
        (fun r => ids.contains r.id) = [] := by
      apply List.filter_eq_nil_iff.mpr
      intro r hr
      have hc := (List.mem_filter.mp hr).2
      simp only [Bool.not_eq_true'] at hc
      simpa using hc
    simp only [hkeep, hdrop, List.length_nil]
  · unfold deletePromptHistoryItem prismaDelete
    by_cases h : db.any (fun r => r.id == id) = true
    · rw [if_pos h]
      simp only [List.any_eq_true, beq_iff_eq] at h
      simpa using h
    · rw [if_neg h]
      simp only [List.any_eq_true, beq_iff_eq] at h
      simpa using h

/-- C9 counterexample to the claim as stated: deleting a non-existent id via
`deletePromptHistoryItem` reports failure, not success. -/
theorem c9_deleteById_not_idempotent :
    deletePromptHistoryItem [] "missing" =
      ([], .err "Fehler beim Löschen des Eintrags")
    ∧ (deletePromptHistoryItem [] "missing").2 ≠ .ok () := by
  constructor
  · rfl
  · decide

/-- Witness for C9's amended statement at concrete inputs. -/
theorem c9_delete_idempotence_witness :
    deleteMultipleHistoryItems
      [⟨"a", ⟨"p", "m1", "m2", none, none, none, none⟩⟩] ["x"] =
      ([⟨"a", ⟨"p", "m1", "m2", none, none, none, none⟩⟩], .ok 0)
    ∧ ((deletePromptHistoryItem
        [⟨"a", ⟨"p", "m1", "m2", none, none, none, none⟩⟩] "a").2 = .ok ()
      ↔ ∃ r ∈ [⟨"a", ⟨"p", "m1", "m2", none, none, none, none⟩⟩],
          StoredPrompt.id r = "a") := by
  constructor
  · exact (c9_delete_idempotence
      [⟨"a", ⟨"p", "m1", "m2", none, none, none, none⟩⟩] ["x"] "a").2.1
      (by decide)
  · exact (c9_delete_idempotence
      [⟨"a", ⟨"p", "m1", "m2", none, none, none, none⟩⟩] ["x"] "a").2.2.2

/-! ### Claim C10 — client reducer frame on error events -/

/-- C10 (amended): on an error event for slot model1 or model2 the reducer
sets that slot's `isStreaming` to false and its `error` field to the event's
message when the message is present and non-empty (and to the fallback text
otherwise), leaves the slot's content, tokens and cost unchanged — the
TokenUsage and cost carried in the error payload are discarded — and leaves
the other slot's sub-state unchanged. -/
theorem c10_error_event_frame (s : StreamState) (e : StreamEvent)
    (ht : e.type = .error) :
    (e.model = .model1 →
      (updateStreamState s e).model1.isStreaming = false
      ∧ (updateStreamState s e).model1.error
          = some (jsOrString e.data.error "Unbekannter Fehler")
      ∧ (updateStreamState s e).model1.content = s.model1.content
      ∧ (updateStreamState s e).model1.tokens = s.model1.tokens
      ∧ (updateStreamState s e).model1.cost = s.model1.cost
      ∧ (updateStreamState s e).model2 = s.model2)
    ∧ (e.model = .model2 →
      (updateStreamState s e).model2.isStreaming = false
      ∧ (updateStreamState s e).model2.error
          = some (jsOrString e.data.error "Unbekannter Fehler")
      ∧ (updateStreamState s e).model2.content = s.model2.content
      ∧ (updateStreamState s e).model2.tokens = s.model2.tokens
      ∧ (updateStreamState s e).model2.cost = s.model2.cost
      ∧ (updateStreamState s e).model1 = s.model1) := by
  obtain ⟨ty, key, d⟩ := e
  simp only at ht
  subst ht
  constructor
  · intro hk
    simp only at hk
    subst hk
    simp [updateStreamState, applySlotEvent]
  · intro hk
    simp only at hk
    subst hk
    simp [updateStreamState, applySlotEvent]

/-- C10 counterexample to the claim as stated: an error event whose payload
message is the empty string makes the reducer store the fallback text
`Unbekannter Fehler`, not the event's message. -/
theorem c10_empty_message_fallback :
    (updateStreamState createInitialStreamState
      ⟨.error, .model1, ⟨"sess", "gpt-4o", some "", some ⟨3, 4, 7⟩, some 1,
        some true, some ""⟩⟩).model1.error = some "Unbekannter Fehler"
    ∧ ("Unbekannter Fehler" : String) ≠ "" := by
  constructor
  · rfl
  · decide

/-- Witness for C10's amended statement at a concrete state and event. -/
theorem c10_error_event_frame_witness :
    (updateStreamState createInitialStreamState
      ⟨.error, .model1, ⟨"sess", "gpt-4o", some "", some ⟨1, 2, 3⟩, some 1,
        some true, some "boom"⟩⟩).model1.isStreaming = false
    ∧ (updateStreamState createInitialStreamState
      ⟨.error, .model1, ⟨"sess", "gpt-4o", some "", some ⟨1, 2, 3⟩, some 1,
        some true, some "boom"⟩⟩).model1.error
        = some (jsOrString (some "boom") "Unbekannter Fehler")
    ∧ (updateStreamState createInitialStreamState
      ⟨.error, .model1, ⟨"sess", "gpt-4o", some "", some ⟨1, 2, 3⟩, some 1,
        some true, some "boom"⟩⟩).model1.content
        = createInitialStreamState.model1.content
    ∧ (updateStreamState createInitialStreamState
      ⟨.error, .model1, ⟨"sess", "gpt-4o", some "", some ⟨1, 2, 3⟩, some 1,
        some true, some "boom"⟩⟩).model1.tokens
        = createInitialStreamState.model1.tokens
    ∧ (updateStreamState createInitialStreamState
      ⟨.error, .model1, ⟨"sess", "gpt-4o", some "", some ⟨1, 2, 3⟩, some 1,
        some true, some "boom"⟩⟩).model1.cost
        = createInitialStreamState.model1.cost
    ∧ (updateStreamState createInitialStreamState
      ⟨.error, .model1, ⟨"sess", "gpt-4o", some "", some ⟨1, 2, 3⟩, some 1,
        some true, some "boom"⟩⟩).model2 = createInitialStreamState.model2 :=
  (c10_error_event_frame createInitialStreamState
    ⟨.error, .model1, ⟨"sess", "gpt-4o", some "", some ⟨1, 2, 3⟩, some 1,
      some true, some "boom"⟩⟩ rfl).1 rfl

/-! ### Trace lemmas for the streaming route -/

lemma savesOf_append (a b : List TraceItem) :
    savesOf (a ++ b) = savesOf a ++ savesOf b := by
  induction a with
  | nil => rfl
  | cons x t ih => cases x <;> simp [savesOf, ih]

lemma evsOf_append (a b : List TraceItem) :
    evsOf (a ++ b) = evsOf a ++ evsOf b := by
  induction a with
  | nil => rfl
  | cons x t ih => cases x <;> simp [evsOf, ih]

lemma savesOf_map_ev (l : List StreamEvent) : savesOf (l.map .ev) = [] := by
  induction l with
  | nil => rfl
  | cons x t ih => simp [savesOf, ih]

lemma evsOf_map_ev (l : List StreamEvent) : evsOf (l.map .ev) = l := by
  induction l with
  | nil => rfl
  | cons x t ih => simp [evsOf, ih]

lemma savesOf_shape (e1 e2 : StreamEvent) (m : List StreamEvent)
    (R : HistoryRecord) :
    savesOf (.ev e1 :: .ev e2 :: (m.map .ev ++ [.save R, .close])) = [R] := by
  simp [savesOf, savesOf_append, savesOf_map_ev]

lemma evsOf_shape (e1 e2 : StreamEvent) (m : List StreamEvent)
    (R : HistoryRecord) :
    evsOf (.ev e1 :: .ev e2 :: (m.map .ev ++ [.save R, .close]))
      = e1 :: e2 :: m := by
  simp [evsOf, evsOf_append, evsOf_map_ev]

/-- In a list with a single `save` item (none before, none after), every
decomposition around a `save` is the obvious one. -/
lemma save_unique : ∀ (A : List TraceItem) {rest pre suf : List TraceItem}
    {R r : HistoryRecord}, savesOf A = [] → savesOf rest = [] →
    A ++ .save R :: rest = pre ++ .save r :: suf →
    pre = A ∧ r = R ∧ suf = rest := by
  intro A
  induction A with
  | nil =>
    intro rest pre suf R r _ hrest heq
    cases pre with
    | nil =>
      simp only [List.nil_append] at heq
      injection heq with h1 h2
      injection h1 with h3
      exact ⟨rfl, h3.symm, h2.symm⟩
    | cons p pre2 =>
      simp only [List.nil_append, List.cons_append, List.cons.injEq] at heq
      exfalso
      have hmem := congrArg savesOf heq.2
      rw [savesOf_append] at hmem
      simp [savesOf, hrest] at hmem
  | cons a A2 ih =>
    intro rest pre suf R r hA hrest heq
    cases a with
    | save r0 => simp [savesOf] at hA
    | ev e =>
      have hA2 : savesOf A2 = [] := by simpa [savesOf] using hA
      cases pre with
      | nil => simp at heq
      | cons p pre2 =>
        simp only [List.cons_append, List.cons.injEq] at heq
        obtain ⟨hpa, heq2⟩ := heq
        obtain ⟨h1, h2, h3⟩ := ih hA2 hrest heq2
        exact ⟨by rw [← hpa, h1], h2, h3⟩
    | close =>
      have hA2 : savesOf A2 = [] := by simpa [savesOf] using hA
      cases pre with
      | nil => simp at heq
      | cons p pre2 =>
        simp only [List.cons_append, List.cons.injEq] at heq
        obtain ⟨hpa, heq2⟩ := heq
        obtain ⟨h1, h2, h3⟩ := ih hA2 hrest heq2
        exact ⟨by rw [← hpa, h1], h2, h3⟩

lemma interleave_nil_left (l : List StreamEvent) : Interleave [] l l := by
  induction l with
  | nil => exact .nil
  | cons x t ih => exact .right ih

lemma interleave_append_self (l1 l2 : List StreamEvent) :
    Interleave l1 l2 (l1 ++ l2) := by
  induction l1 with
  | nil => simpa using interleave_nil_left l2
  | cons x t ih => exact .left ih

lemma interleave_swap {l1 l2 m : List StreamEvent}
    (h : Interleave l1 l2 m) : Interleave l2 l1 m := by
  induction h with
  | nil => exact .nil
  | left _ ih => exact .right ih
  | right _ ih => exact .left ih

lemma interleave_mem {l1 l2 m : List StreamEvent}
    (h : Interleave l1 l2 m) : ∀ e, e ∈ m ↔ e ∈ l1 ∨ e ∈ l2 := by
  induction h with
  | nil => simp
  | left _ ih =>
    intro e
    simp only [List.mem_cons, ih e]
    tauto
  | right _ ih =>
    intro e
    simp only [List.mem_cons, ih e]
    tauto

lemma interleave_filter_left {l1 l2 m : List StreamEvent}
    {p : StreamEvent → Bool} (h : Interleave l1 l2 m)
    (h1 : ∀ e ∈ l1, p e = true) (h2 : ∀ e ∈ l2, p e = false) :
    m.filter p = l1 := by
  induction h with
  | nil => rfl
  | @left x l1 l2 m hi ih =>
    have hx := h1 x (by simp)
    simp only [List.filter_cons, hx, if_pos]
    rw [ih (fun e he => h1 e (by simp [he])) h2]
  | @right x l1 l2 m hi ih =>
    have hx := h2 x (by simp)
    simp only [List.filter_cons, hx]
    exact ih h1 (fun e he => h2 e (by simp [he]))

lemma tokenEvents_mem {s mId : String} {key : ModelKey} :
    ∀ (ds : List String) (n : ℕ) e, e ∈ tokenEvents s mId key ds n →
      e.model = key ∧ e.type = .token := by
  intro ds
  induction ds with
  | nil => intro n e he; simp [tokenEvents] at he
  | cons d t ih =>
    intro n e he
    by_cases hd : d = ""
    · rw [tokenEvents, if_pos hd] at he
      exact ih n e he
    · rw [tokenEvents, if_neg hd] at he
      rcases List.mem_cons.mp he with rfl | hmem
      · exact ⟨rfl, rfl⟩
      · exact ih (n + 1) e hmem

/-- The per-slot event list is the token events followed by one terminal
event tagged with the slot and carrying a terminal type. -/
lemma streamModelEvents_shape (s mId : String) (key : ModelKey)
    (ds : List String) (fin : StreamEnd) :
    ∃ term, streamModelEvents s mId key ds fin =
        tokenEvents s mId key ds 0 ++ [term]
      ∧ term.model = key ∧ (term.type = .complete ∨ term.type = .error)
      ∧ isTerminal term = true := by
  cases fin with
  | ok => exact ⟨_, rfl, rfl, Or.inl rfl, rfl⟩
  | errMsg msg => exact ⟨_, rfl, rfl, Or.inr rfl, rfl⟩

lemma streamModelEvents_model {s mId : String} {key : ModelKey}
    {ds : List String} {fin : StreamEnd} :
    ∀ e ∈ streamModelEvents s mId key ds fin, e.model = key := by
  intro e he
  obtain ⟨term, hshape, hkey, _, _⟩ := streamModelEvents_shape s mId key ds fin
  rw [hshape] at he
  rcases List.mem_append.mp he with hmem | hmem
  · exact (tokenEvents_mem ds 0 e hmem).1
  · rw [List.mem_singleton.mp hmem]
    exact hkey

/-- Filtering the merged slot events for slot 1 recovers exactly slot 1's
sequence (and symmetrically for slot 2). -/
lemma filter_merged_model1 {s m1 m2 : String} {d1 d2 : List String}
    {f1 f2 : StreamEnd} {m : List StreamEvent}
    (hint : Interleave (streamModelEvents s m1 .model1 d1 f1)
      (streamModelEvents s m2 .model2 d2 f2) m) :
    m.filter (fun e => decide (e.model = ModelKey.model1))
      = streamModelEvents s m1 .model1 d1 f1 := by
  apply interleave_filter_left hint
  · intro e he
    simp [streamModelEvents_model e he]
  · intro e he
    simp [streamModelEvents_model e he]

lemma filter_merged_model2 {s m1 m2 : String} {d1 d2 : List String}
    {f1 f2 : StreamEnd} {m : List StreamEvent}
    (hint : Interleave (streamModelEvents s m1 .model1 d1 f1)
      (streamModelEvents s m2 .model2 d2 f2) m) :
    m.filter (fun e => decide (e.model = ModelKey.model2))
      = streamModelEvents s m2 .model2 d2 f2 := by
  apply interleave_filter_left (interleave_swap hint)
  · intro e he
    simp [streamModelEvents_model e he]
  · intro e he
    simp [streamModelEvents_model e he]

/-- The per-slot projection of a run/run trace. -/
lemma slotEventsIn_runrun {s m1 m2 p : String} {d1 d2 : List String}
    {f1 f2 : StreamEnd} {m : List StreamEvent}
    (hint : Interleave (streamModelEvents s m1 .model1 d1 f1)
      (streamModelEvents s m2 .model2 d2 f2) m) :
    slotEventsIn .model1 (.ev (startEvent s m1 .model1) ::
        .ev (startEvent s m2 .model2) :: (m.map .ev ++
          [.save (saveStreamResults p m1 m2 (streamModelResult m1 d1 f1)
            (streamModelResult m2 d2 f2)), .close]))
      = startEvent s m1 .model1 :: streamModelEvents s m1 .model1 d1 f1
    ∧ slotEventsIn .model2 (.ev (startEvent s m1 .model1) ::
        .ev (startEvent s m2 .model2) :: (m.map .ev ++
          [.save (saveStreamResults p m1 m2 (streamModelResult m1 d1 f1)
            (streamModelResult m2 d2 f2)), .close]))
      = startEvent s m2 .model2 :: streamModelEvents s m2 .model2 d2 f2 := by
  unfold slotEventsIn
  rw [evsOf_shape]
  constructor
  · have hstep : List.filter (fun e => decide (e.model = ModelKey.model1))
        (startEvent s m1 .model1 :: startEvent s m2 .model2 :: m)
        = startEvent s m1 .model1 ::
          List.filter (fun e => decide (e.model = ModelKey.model1)) m := rfl
    rw [hstep, filter_merged_model1 hint]
  · have hstep : List.filter (fun e => decide (e.model = ModelKey.model2))
        (startEvent s m1 .model1 :: startEvent s m2 .model2 :: m)
        = startEvent s m2 .model2 ::
          List.filter (fun e => decide (e.model = ModelKey.model2)) m := rfl
    rw [hstep, filter_merged_model2 hint]

/-! ### Claim C1 — at-most-once, joint-completion commit -/

/-- C1: for every accepted comparison request handled by the streaming route,
at most one HistoryRecord is written; no event follows a write (so nothing is
written while either slot is still streaming); and whenever both slot tasks
run (so both reach a terminal state), the record is written exactly once —
for every interleaving of the two slots' events — and both slots' terminal
events precede the write. -/
theorem c1_single_commit (req : GetRequest) (b1 b2 : BackendOutcome)
    (t : List TraceItem) (hG : GetTrace req b1 b2 t) :
    (savesOf t).length ≤ 1
    ∧ (∀ pre r suf, t = pre ++ .save r :: suf → evsOf suf = [])
    ∧ (∀ a1 g1 a2 g2, b1 = .run a1 g1 → b2 = .run a2 g2 →
        (savesOf t).length = 1
        ∧ ∀ pre r suf, t = pre ++ .save r :: suf →
            (∃ e ∈ evsOf pre, e.model = ModelKey.model1 ∧ isTerminal e = true)
            ∧ (∃ e ∈ evsOf pre, e.model = ModelKey.model2 ∧
                isTerminal e = true)) := by
  obtain ⟨s, m1, m2, p, hv, hslot⟩ := hG
  cases b1 with
  | createFail msg =>
    have ht : t = [.ev (startupErrorEvent s m1 msg), .close] := hslot
    subst ht
    refine ⟨by simp [savesOf], ?_, ?_⟩
    · intro pre r suf heq
      exfalso
      have hs := congrArg savesOf heq
      rw [savesOf_append] at hs
      simp [savesOf] at hs
    · intro a1 g1 a2 g2 h1 h2
      exact BackendOutcome.noConfusion h1
  | run d1 f1 =>
    cases b2 with
    | createFail msg =>
      have ht : t = [.ev (startupErrorEvent s m1 msg), .close] := hslot
      subst ht
      refine ⟨by simp [savesOf], ?_, ?_⟩
      · intro pre r suf heq
        exfalso
        have hs := congrArg savesOf heq
        rw [savesOf_append] at hs
        simp [savesOf] at hs
      · intro a1 g1 a2 g2 h1 h2
        exact BackendOutcome.noConfusion h2
    | run d2 f2 =>
      obtain ⟨m, hint, ht⟩ := hslot
      subst ht
      have hA : savesOf (.ev (startEvent s m1 .model1) ::
          .ev (startEvent s m2 .model2) :: m.map .ev) = [] := by
        simp [savesOf, savesOf_map_ev]
      have hrest : savesOf [TraceItem.close] = [] := rfl
      have hassoc : (.ev (startEvent s m1 .model1) ::
            .ev (startEvent s m2 .model2) :: m.map .ev : List TraceItem) ++
            (.save (saveStreamResults p m1 m2 (streamModelResult m1 d1 f1)
              (streamModelResult m2 d2 f2)) :: [.close])
          = .ev (startEvent s m1 .model1) ::
            .ev (startEvent s m2 .model2) :: (m.map .ev ++
              [.save (saveStreamResults p m1 m2 (streamModelResult m1 d1 f1)
                (streamModelResult m2 d2 f2)), .close]) := by
        simp
      have hdecomp : ∀ (pre : List TraceItem) (r : HistoryRecord)
          (suf : List TraceItem),
          TraceItem.ev (startEvent s m1 .model1) ::
            TraceItem.ev (startEvent s m2 .model2) ::
            (m.map TraceItem.ev ++
              [TraceItem.save (saveStreamResults p m1 m2
                (streamModelResult m1 d1 f1) (streamModelResult m2 d2 f2)),
               TraceItem.close])
            = pre ++ TraceItem.save r :: suf →
          pre = TraceItem.ev (startEvent s m1 .model1) ::
            TraceItem.ev (startEvent s m2 .model2) :: m.map TraceItem.ev
          ∧ suf = [TraceItem.close] := by
        intro pre r suf heq
        have h := save_unique _ hA hrest (hassoc.trans heq)
        exact ⟨h.1, h.2.2⟩
      refine ⟨by rw [savesOf_shape]; simp, ?_, ?_⟩
      · intro pre r suf heq
        rw [(hdecomp pre r suf heq).2]
        rfl
      · intro a1 g1 a2 g2 h1 h2
        refine ⟨by rw [savesOf_shape]; simp, ?_⟩
        intro pre r suf heq
        have hpre := (hdecomp pre r suf heq).1
        have hevs : evsOf pre = startEvent s m1 .model1 ::
            startEvent s m2 .model2 :: m := by
          rw [hpre]
          simp [evsOf, evsOf_map_ev]
        obtain ⟨t1, hs1, hk1, _, hT1⟩ :=
          streamModelEvents_shape s m1 .model1 d1 f1
        obtain ⟨t2, hs2, hk2, _, hT2⟩ :=
          streamModelEvents_shape s m2 .model2 d2 f2
        constructor
        · refine ⟨t1, ?_, hk1, hT1⟩
          rw [hevs]
          refine List.mem_cons_of_mem _ (List.mem_cons_of_mem _ ?_)
          apply (interleave_mem hint t1).mpr
          exact Or.inl (by rw [hs1]; exact List.mem_append_right _ (by simp))
        · refine ⟨t2, ?_, hk2, hT2⟩
          rw [hevs]
          refine List.mem_cons_of_mem _ (List.mem_cons_of_mem _ ?_)
          apply (interleave_mem hint t2).mpr
          exact Or.inr (by rw [hs2]; exact List.mem_append_right _ (by simp))

/-! ### Claim C2 — partial failure isolation -/

/-- C2: when one slot's backend stream raises an error and the other
completes normally, the surviving slot's per-slot event sequence is exactly
what its own chunks dictate (one start, its token events, its complete
event — unaffected by the failing slot), the persisted record carries the
completed slot's text and cost and nulls for the failed slot, and the trace
still ends with the stream being closed (overall completion, no hang). -/
theorem c2_partial_failure (req : GetRequest) (b1 b2 : BackendOutcome)
    (t : List TraceItem) (s m1 m2 p : String)
    (hv : validateRequest req = some (s, m1, m2, p))
    (hG : GetTrace req b1 b2 t) :
    (∀ d1 d2 msg, b1 = .run d1 .ok → b2 = .run d2 (.errMsg msg) →
      savesOf t = [⟨p, m1, m2,
        some (d1.foldl (fun acc d => if d = "" then acc else acc ++ d) ""),
        none, some (liveCostD 0 (outTokens d1) m1), none⟩]
      ∧ (∃ u, t = u ++ [.close])
      ∧ slotEventsIn .model1 t
          = startEvent s m1 .model1 :: streamModelEvents s m1 .model1 d1 .ok
      ∧ slotEventsIn .model2 t
          = startEvent s m2 .model2 ::
            streamModelEvents s m2 .model2 d2 (.errMsg msg))
    ∧ (∀ d1 d2 msg, b1 = .run d1 (.errMsg msg) → b2 = .run d2 .ok →
      savesOf t = [⟨p, m1, m2, none,
        some (d2.foldl (fun acc d => if d = "" then acc else acc ++ d) ""),
        none, some (liveCostD 0 (outTokens d2) m2)⟩]
      ∧ (∃ u, t = u ++ [.close])
      ∧ slotEventsIn .model2 t
          = startEvent s m2 .model2 :: streamModelEvents s m2 .model2 d2 .ok
      ∧ slotEventsIn .model1 t
          = startEvent s m1 .model1 ::
            streamModelEvents s m1 .model1 d1 (.errMsg msg)) := by
  obtain ⟨s2, m12, m22, p2, hv2, hslot⟩ := hG
  have hvv : s = s2 ∧ m1 = m12 ∧ m2 = m22 ∧ p = p2 := by
    have := hv.symm.trans hv2
    simp only [Option.some.injEq, Prod.mk.injEq] at this
    tauto
  obtain ⟨rfl, rfl, rfl, rfl⟩ := hvv
  constructor
  · intro d1 d2 msg h1 h2
    subst h1
    subst h2
    obtain ⟨m, hint, ht⟩ := hslot
    subst ht
    refine ⟨?_, ?_, ?_, ?_⟩
    · rw [savesOf_shape]
      rfl
    · exact ⟨TraceItem.ev (startEvent s m1 .model1) ::
        TraceItem.ev (startEvent s m2 .model2) ::
        (m.map TraceItem.ev ++ [TraceItem.save (saveStreamResults p m1 m2
          (streamModelResult m1 d1 .ok)
          (streamModelResult m2 d2 (.errMsg msg)))]), by simp⟩
    · exact (slotEventsIn_runrun hint).1
    · exact (slotEventsIn_runrun hint).2
  · intro d1 d2 msg h1 h2
    subst h1
    subst h2
    obtain ⟨m, hint, ht⟩ := hslot
    subst ht
    refine ⟨?_, ?_, ?_, ?_⟩
    · rw [savesOf_shape]
      rfl
    · exact ⟨TraceItem.ev (startEvent s m1 .model1) ::
        TraceItem.ev (startEvent s m2 .model2) ::
        (m.map TraceItem.ev ++ [TraceItem.save (saveStreamResults p m1 m2
          (streamModelResult m1 d1 (.errMsg msg))
          (streamModelResult m2 d2 .ok))]), by simp⟩
    · exact (slotEventsIn_runrun hint).2
    · exact (slotEventsIn_runrun hint).1

/-! ### Claim C3 — per-slot event grammar -/

/-- C3 (amended): for every valid request in which both backend instances are
created successfully, the event sequence restricted to either slot is exactly
one `start` event, then zero or more `token` events, then exactly one
terminal event (`complete` or `error`), with no events for that slot after
the terminal one.  (When instance creation throws, the route instead emits a
single `error` event without a preceding `start` — see the counterexample.) -/
theorem c3_per_slot_grammar (req : GetRequest) (b1 b2 : BackendOutcome)
    (t : List TraceItem) (d1 d2 : List String) (f1 f2 : StreamEnd)
    (hG : GetTrace req b1 b2 t)
    (h1 : b1 = .run d1 f1) (h2 : b2 = .run d2 f2) :
    ∀ key, key = ModelKey.model1 ∨ key = ModelKey.model2 →
      ∃ st toks term, slotEventsIn key t = st :: (toks ++ [term])
        ∧ st.type = .start
        ∧ (∀ e ∈ toks, e.type = .token)
        ∧ (term.type = .complete ∨ term.type = .error)
        ∧ (slotEventsIn key t).countP (fun e => decide (e.type = .start)) = 1
        ∧ (slotEventsIn key t).countP (fun e => isTerminal e) = 1 := by
  subst h1
  subst h2
  obtain ⟨s, m1, m2, p, hv, hslot⟩ := hG
  obtain ⟨m, hint, ht⟩ := hslot
  subst ht
  have hproj := slotEventsIn_runrun (p := p) hint
  intro key hkey
  have main : ∀ (mId : String) (k : ModelKey) (ds : List String)
      (fin : StreamEnd),
      ∃ st toks term, startEvent s mId k :: streamModelEvents s mId k ds fin
          = st :: (toks ++ [term])
        ∧ st.type = .start
        ∧ (∀ e ∈ toks, e.type = .token)
        ∧ (term.type = .complete ∨ term.type = .error)
        ∧ (startEvent s mId k :: streamModelEvents s mId k ds fin).countP
            (fun e => decide (e.type = .start)) = 1
        ∧ (startEvent s mId k :: streamModelEvents s mId k ds fin).countP
            (fun e => isTerminal e) = 1 := by
    intro mId k ds fin
    obtain ⟨term, hsh, hk, hty, hT⟩ := streamModelEvents_shape s mId k ds fin
    refine ⟨startEvent s mId k, tokenEvents s mId k ds 0, term,
      by rw [hsh], rfl, fun e he => (tokenEvents_mem ds 0 e he).2, hty,
      ?_, ?_⟩
    · have h0 : (tokenEvents s mId k ds 0).countP
          (fun e => decide (e.type = EventType.start)) = 0 := by
        apply List.countP_eq_zero.mpr
        intro e he
        simp [(tokenEvents_mem ds 0 e he).2]
      have hpt : decide (term.type = EventType.start) = false := by
        rcases hty with h | h <;> simp [h]
      rw [hsh]
      simp only [List.countP_cons, List.countP_append, List.countP_nil, h0]
      simp [hpt, startEvent]
    · have h0 : (tokenEvents s mId k ds 0).countP
          (fun e => isTerminal e) = 0 := by
        apply List.countP_eq_zero.mpr
        intro e he
        simp [isTerminal, (tokenEvents_mem ds 0 e he).2]
      rw [hsh]
      simp only [List.countP_cons, List.countP_append, List.countP_nil, h0]
      have hst : isTerminal (startEvent s mId k) = false := rfl
      simp [hT, hst]
  rcases hkey with rfl | rfl
  · rw [hproj.1]
    exact main m1 .model1 d1 f1
  · rw [hproj.2]
    exact main m2 .model2 d2 f2

/-! ### Lemmas on token events for claim C5 -/

lemma nonEmptyDeltas_cons (d : String) (t : List String) :
    nonEmptyDeltas (d :: t)
      = if d = "" then nonEmptyDeltas t else d :: nonEmptyDeltas t := by
  by_cases hd : d = "" <;> simp [nonEmptyDeltas, List.filter_cons, hd]

lemma tokenEvents_length (s mId : String) (key : ModelKey) :
    ∀ (ds : List String) (n : ℕ),
    (tokenEvents s mId key ds n).length = (nonEmptyDeltas ds).length := by
  intro ds
  induction ds with
  | nil => intro n; rfl
  | cons d t ih =>
    intro n
    by_cases hd : d = ""
    · rw [tokenEvents, if_pos hd, nonEmptyDeltas_cons, if_pos hd, ih]
    · rw [tokenEvents, if_neg hd, nonEmptyDeltas_cons, if_neg hd]
      simp [ih]

lemma tokenEvents_get? (s mId : String) (key : ModelKey) :
    ∀ (ds : List String) (n i : ℕ) (d : String),
      (nonEmptyDeltas ds).get? i = some d →
      (tokenEvents s mId key ds n).get? i
        = some (mkTokenEvent s mId key d (n + i + 1)) := by
  intro ds
  induction ds with
  | nil =>
    intro n i d hd
    simp [nonEmptyDeltas] at hd
  | cons dd t ih =>
    intro n i d hd
    by_cases hdd : dd = ""
    · rw [tokenEvents, if_pos hdd]
      apply ih
      rwa [nonEmptyDeltas_cons, if_pos hdd] at hd
    · rw [tokenEvents, if_neg hdd]
      rw [nonEmptyDeltas_cons, if_neg hdd] at hd
      cases i with
      | zero =>
        rw [List.get?_cons_zero] at hd ⊢
        injection hd with h
        rw [h]
      | succ j =>
        rw [List.get?_cons_succ] at hd ⊢
        rw [ih (n + 1) j d hd,
          show n + 1 + j + 1 = n + (j + 1) + 1 from by omega]

lemma foldl_skip_empty : ∀ (ds : List String) (acc : String),
    ds.foldl (fun a d => if d = "" then a else a ++ d) acc
      = (nonEmptyDeltas ds).foldl (fun a d => a ++ d) acc := by
  intro ds
  induction ds with
  | nil => intro acc; rfl
  | cons d t ih =>
    intro acc
    by_cases hd : d = ""
    · rw [List.foldl_cons, if_pos hd, nonEmptyDeltas_cons, if_pos hd, ih]
    · rw [List.foldl_cons, if_neg hd, nonEmptyDeltas_cons, if_neg hd,
        List.foldl_cons, ih]

/-! ### Evaluation lemmas for the tokenizer at concrete inputs -/

lemma countTokens_gpt4o_sayhi : countTokens "Say hi" "gpt-4o" = 2 := by
  have h : jsTrim "Say hi" = "Say hi" := by decide
  simp only [countTokens, countOpenAITokens, OPENAI_CHARS_PER_TOKEN, h,
    show jsStartsWith "gpt-4o" "gpt-" = true from by decide,
    show "Say hi".length = 6 from by decide,
    show ("Say hi" = "") = False from by simp, Bool.true_or, if_true,
    if_false]
  rw [ratCeilNat_eq_ceil _ (by norm_num), Nat.ceil_eq_iff (by norm_num)]
  norm_num

lemma countTokens_gpt4o_hello : countTokens "Hello" "gpt-4o" = 2 := by
  have h : jsTrim "Hello" = "Hello" := by decide
  simp only [countTokens, countOpenAITokens, OPENAI_CHARS_PER_TOKEN, h,
    show jsStartsWith "gpt-4o" "gpt-" = true from by decide,
    show "Hello".length = 5 from by decide,
    show ("Hello" = "") = False from by simp, Bool.true_or, if_true,
    if_false]
  rw [ratCeilNat_eq_ceil _ (by norm_num), Nat.ceil_eq_iff (by norm_num)]
  norm_num

/-! ### Claim C4 — terminal events under failure (code bug) -/

/-- C4 (code bug): at the failing input where creating the slot-2 model
instance throws, the route's whole trace is one `model1`-tagged error event
followed by close — slot model2 receives no event at all, in particular no
terminal event, contradicting the claim; slot model1 does get exactly one
terminal event. -/
theorem c4_slot2_no_terminal_event :
    GetTrace reqW (.run ["Hi"] .ok)
      (.createFail "missing ANTHROPIC_API_KEY") traceCreateFail2
    ∧ slotEventsIn .model2 traceCreateFail2 = []
    ∧ (slotEventsIn .model1 traceCreateFail2).countP
        (fun e => isTerminal e) = 1 := by
  refine ⟨⟨"sess", "gpt-4o", "claude-3-5-haiku-20241022", "Say hi",
    rfl, rfl⟩, rfl, rfl⟩

/-! ### Claim C5 — token events carry chunk counts -/

/-- C5 (amended): while a slot is streaming, each non-empty text increment
produces one token event carrying that increment, a TokenUsage whose input
stays fixed at 0 (the prompt is never estimated) and whose output is the
count of non-empty chunks received so far (one per chunk, not a re-estimate
from text), and the live cost recomputed by the Accountant from those
counts; the accumulated text of a cleanly completed slot is the
concatenation of its non-empty increments. -/
theorem c5_token_event_per_chunk (s mId : String) (key : ModelKey)
    (ds : List String) (i : ℕ) (d : String)
    (hd : (nonEmptyDeltas ds).get? i = some d) :
    (tokenEvents s mId key ds 0).get? i = some ⟨.token, key,
      ⟨s, mId, some d, some ⟨0, i + 1, i + 1⟩,
       some (liveCostD 0 (i + 1) mId), some false, none⟩⟩
    ∧ streamModelResult mId ds .ok = some
        ⟨(nonEmptyDeltas ds).foldl (fun acc x => acc ++ x) "",
         ⟨0, outTokens ds, outTokens ds⟩, liveCostD 0 (outTokens ds) mId⟩
    ∧ (tokenEvents s mId key ds 0).length = (nonEmptyDeltas ds).length := by
  refine ⟨?_, ?_, tokenEvents_length s mId key ds 0⟩
  · have h := tokenEvents_get? s mId key ds 0 i d hd
    rwa [show (0 : ℕ) + i + 1 = i + 1 from by omega] at h
  · unfold streamModelResult
    rw [foldl_skip_empty]

/-- C5 counterexample to the claim as stated: with prompt `Say hi` and the
single 5-character chunk `Hello` on gpt-4o, the emitted token event carries
usage (0, 1, 1) — whereas the claim's re-estimation from the tokenizer would
require input = countTokens("Say hi") = 2 and output = countTokens("Hello")
= 2. -/
theorem c5_not_reestimated :
    (tokenEvents "sess" "gpt-4o" .model1 ["Hello"] 0).map
        (fun e => e.data.tokens) = [some ⟨0, 1, 1⟩]
    ∧ countTokens "Say hi" "gpt-4o" = 2
    ∧ countTokens "Hello" "gpt-4o" = 2
    ∧ some (⟨0, 1, 1⟩ : TokenUsage) ≠
        some (⟨countTokens "Say hi" "gpt-4o", countTokens "Hello" "gpt-4o",
          countTokens "Say hi" "gpt-4o" + countTokens "Hello" "gpt-4o"⟩ :
          TokenUsage) := by
  refine ⟨rfl, countTokens_gpt4o_sayhi, countTokens_gpt4o_hello, ?_⟩
  rw [countTokens_gpt4o_sayhi, countTokens_gpt4o_hello]
  decide

/-- Witness for C5's amended statement: second non-empty chunk of
`["Hi", "", " there"]`. -/
theorem c5_token_event_per_chunk_witness :
    (tokenEvents "sess" "gpt-4o" .model1 ["Hi", "", " there"] 0).get? 1
      = some ⟨.token, .model1, ⟨"sess", "gpt-4o", some " there",
        some ⟨0, 2, 2⟩, some (liveCostD 0 2 "gpt-4o"), some false, none⟩⟩
    ∧ streamModelResult "gpt-4o" ["Hi", "", " there"] .ok = some
        ⟨(nonEmptyDeltas ["Hi", "", " there"]).foldl
            (fun acc x => acc ++ x) "",
         ⟨0, outTokens ["Hi", "", " there"], outTokens ["Hi", "", " there"]⟩,
         liveCostD 0 (outTokens ["Hi", "", " there"]) "gpt-4o"⟩ := by
  have h := c5_token_event_per_chunk "sess" "gpt-4o" .model1
    ["Hi", "", " there"] 1 " there" (by decide)
  exact ⟨h.1, h.2.1⟩

/-! ### Counterexample and witnesses for claims C1–C3 -/

/-- C3 counterexample to the claim as stated: when creating the slot-1 model
instance throws, the route emits for slot model1 a single `error` event with
no preceding `start` event, so the per-slot grammar of the claim fails on
this valid (accepted) request. -/
theorem c3_error_without_start :
    GetTrace reqW (.createFail "ENOKEY") (.run [] .ok) traceCreateFail1
    ∧ ¬ (∃ st toks term,
        slotEventsIn .model1 traceCreateFail1 = st :: (toks ++ [term])
        ∧ st.type = .start
        ∧ (∀ e ∈ toks, e.type = .token)
        ∧ (term.type = .complete ∨ term.type = .error)) := by
  constructor
  · exact ⟨"sess", "gpt-4o", "claude-3-5-haiku-20241022", "Say hi", rfl, rfl⟩
  · rintro ⟨st, toks, term, heq, hst, -, -⟩
    have hlist : slotEventsIn .model1 traceCreateFail1
        = [startupErrorEvent "sess" "gpt-4o" "ENOKEY"] := rfl
    rw [hlist] at heq
    have hlen := congrArg List.length heq
    simp only [List.length_singleton, List.length_cons,
      List.length_append] at hlen
    omega

/-- Witness for C1 at a concrete all-success run. -/
theorem c1_single_commit_witness :
    (savesOf traceW1).length ≤ 1 ∧ (savesOf traceW1).length = 1 := by
  have hG : GetTrace reqW (.run deltasW1 .ok) (.run deltasW2 .ok) traceW1 :=
    ⟨"sess", "gpt-4o", "claude-3-5-haiku-20241022", "Say hi", rfl,
      ⟨streamModelEvents "sess" "gpt-4o" .model1 deltasW1 .ok ++
        streamModelEvents "sess" "claude-3-5-haiku-20241022" .model2
          deltasW2 .ok,
       interleave_append_self _ _, rfl⟩⟩
  have h := c1_single_commit reqW (.run deltasW1 .ok) (.run deltasW2 .ok)
    traceW1 hG
  exact ⟨h.1, (h.2.2 deltasW1 .ok deltasW2 .ok rfl rfl).1⟩

/-- Witness for C2 at a concrete run where slot 2 fails after 0 chunks. -/
theorem c2_partial_failure_witness :
    savesOf traceW2 = [⟨"Say hi", "gpt-4o", "claude-3-5-haiku-20241022",
      some (deltasW1.foldl (fun acc d => if d = "" then acc else acc ++ d) ""),
      none, some (liveCostD 0 (outTokens deltasW1) "gpt-4o"), none⟩]
    ∧ (∃ u, traceW2 = u ++ [.close]) := by
  have hG : GetTrace reqW (.run deltasW1 .ok) (.run [] (.errMsg "boom"))
      traceW2 :=
    ⟨"sess", "gpt-4o", "claude-3-5-haiku-20241022", "Say hi", rfl,
      ⟨streamModelEvents "sess" "gpt-4o" .model1 deltasW1 .ok ++
        streamModelEvents "sess" "claude-3-5-haiku-20241022" .model2 []
          (.errMsg "boom"),
       interleave_append_self _ _, rfl⟩⟩
  have h := (c2_partial_failure reqW (.run deltasW1 .ok)
    (.run [] (.errMsg "boom")) traceW2 "sess" "gpt-4o"
    "claude-3-5-haiku-20241022" "Say hi" rfl hG).1 deltasW1 [] "boom" rfl rfl
  exact ⟨h.1, h.2.1⟩

/-- Witness for C3's amended statement at a concrete all-success run. -/
theorem c3_per_slot_grammar_witness :
    ∃ st toks term, slotEventsIn .model1 traceW1 = st :: (toks ++ [term])
      ∧ st.type = .start
      ∧ (∀ e ∈ toks, e.type = .token)
      ∧ (term.type = .complete ∨ term.type = .error)
      ∧ (slotEventsIn .model1 traceW1).countP
          (fun e => decide (e.type = .start)) = 1
      ∧ (slotEventsIn .model1 traceW1).countP (fun e => isTerminal e) = 1 := by
  have hG : GetTrace reqW (.run deltasW1 .ok) (.run deltasW2 .ok) traceW1 :=
    ⟨"sess", "gpt-4o", "claude-3-5-haiku-20241022", "Say hi", rfl,
      ⟨streamModelEvents "sess" "gpt-4o" .model1 deltasW1 .ok ++
        streamModelEvents "sess" "claude-3-5-haiku-20241022" .model2
          deltasW2 .ok,
       interleave_append_self _ _, rfl⟩⟩
  exact c3_per_slot_grammar reqW (.run deltasW1 .ok) (.run deltasW2 .ok)
    traceW1 deltasW1 deltasW2 .ok .ok hG rfl rfl .model1 (Or.inl rfl)

end Arena
